import Mathlib

/-!
Verification of the session lifecycle and expiration-management engine of
prisma-session-store, a session-store adapter backed by a Prisma client.

The development shallowly embeds the TypeScript source:
* `getTTL` embeds src/lib/utils/get-ttl.ts;
* `createExpiration` embeds src/lib/utils/create-expiration.ts;
* the operation models (`getOp`, `setOp`, `touchOp`, `allOp`, `idsOp`,
  `lengthOp`, `clearOp`, `destroyOne`, `destroyArr`) embed the corresponding
  methods of PrismaSessionStore in src/lib/prisma-session-store.ts, with the
  backing store represented as an explicit record list and asynchronous
  completion represented by an explicit list of callback invocations, each
  tagged with the point of the control flow at which it happens;
* `startIntervalStep`, `stopIntervalStep` and `validateConnectionStep` embed
  the pruning-scheduler and connection-health management;
* a small scheduler (`setTaskStep`, `runSetSchedule`) embeds the event-loop
  interleaving of several concurrent set() invocations, with one suspension
  point per awaited call, to settle the concurrency claims.

JavaScript numbers are modelled as rationals, timestamps (Date.valueOf
results) as integers in milliseconds, and fallible operations as Except.
Injected failures of the backing store are passed as explicit fault
parameters, mirroring a rejected promise from the Prisma client.
-/

/-- Errors surfaced by the embedded operations: a TypeError thrown by the
code, an Error constructed by the code, or an opaque injected failure from
the backing store or the serializer. -/
inductive JsError where
  | typeError (msg : String)
  | jsError (msg : String)
  | raw (tag : String)
deriving Repr, DecidableEq

/-- A JavaScript field value as far as the TTL resolver inspects it:
undefined, null, a number, or anything else. -/
inductive JsField where
  | undef
  | nullV
  | num (n : ℚ)
  | other
deriving Repr, DecidableEq

/-- The cookie substructure of a session argument; only maxAge is read by
the TTL resolver. -/
structure CookieArg where
  maxAge : JsField
deriving Repr, DecidableEq

/-- The parsed flat content of a stored session payload, other than the
cookie field: an association list of opaque fields. -/
abbrev SessionFields := List (String × String)

/-- A session argument as passed by the middleware to set() and touch():
an optional cookie substructure (none models an absent cookie field)
plus the remaining fields, kept opaque. -/
structure SessionArg where
  cookie : Option CookieArg
  rest : SessionFields
deriving Repr, DecidableEq

/-- A session object as stored and parsed back by the serializer: the same
shape as a session argument (plain fields plus an optional cookie). -/
structure StoredObj where
  fields : SessionFields
  cookie : Option CookieArg
deriving Repr, DecidableEq

/-- The stored-object view of a session argument, as the serializer sees it
when set() stringifies the session it was given. -/
def SessionArg.toObj (s : SessionArg) : StoredObj :=
  { fields := s.rest, cookie := s.cookie }

/-- The value of the ttl configuration option: undefined, a number, a
TTL-factory function, or set to anything else.  In the source the factory is
invoked as options.ttl(options, session, sid) where options is the very
object holding the factory; since that self-application adds no information
beyond the session and sid arguments, the factory is embedded already
applied to its options argument. -/
inductive TTLValue where
  | undefinedV
  | numberV (n : ℚ)
  | functionV (f : SessionArg → String → ℚ)
  | otherV

/-- The slice of the store options read by the TTL resolver (the source
signature takes Pick of IOptions restricted to ttl). -/
structure TTLOptions where
  ttl : TTLValue

/-- One day in milliseconds, the default TTL (ONE_DAY_MS in the source). -/
def ONE_DAY_MS : ℚ := 86400000

/-- Embedding of getTTL from src/lib/utils/get-ttl.ts: a numeric ttl option
is returned directly; a factory is invoked; any other non-undefined ttl
raises a TypeError; otherwise a numeric cookie maxAge is floored, and
failing that the one-day default is used. -/
def getTTL (options : TTLOptions) (session : SessionArg) (sid : String) :
    Except JsError ℚ :=
  match options.ttl with
  | .numberV n => .ok n
  | .functionV f => .ok (f session sid)
  | .otherV => .error (.typeError "options.ttl must be a number or function.")
  | .undefinedV =>
    let maxAge : JsField :=
      match session.cookie with
      | none => .nullV
      | some c => match c.maxAge with
        | .undef => .nullV
        | m => m
    .ok (match maxAge with
      | .num n => (n.floor : ℤ)
      | _ => ONE_DAY_MS)

/-- Written from the specification text for the TTL resolver, to be compared
with the source embedding: the five-step precedence order of section 4.2
of the spec (number, then function, then configuration error, then floored
numeric cookie maxAge, then the one-day default). -/
def getTTLSpec (options : TTLOptions) (session : SessionArg) (sid : String) :
    Except JsError ℚ :=
  match options.ttl with
  | .numberV n => .ok n
  | .functionV f => .ok (f session sid)
  | .otherV => .error (.typeError "options.ttl must be a number or function.")
  | .undefinedV =>
    match session.cookie with
    | some { maxAge := .num n } => .ok ((n.floor : ℤ) : ℚ)
    | _ => .ok ONE_DAY_MS

/-- C1: for every options object, session payload and key, the TTL resolver
returns exactly the value selected by the spec's precedence order: a numeric
ttl directly; a factory's numeric result; a configuration error when ttl is
set but neither; else the floor of a numeric cookie maxAge; else one day
(86,400,000 ms). -/
theorem getTTL_matches_spec (options : TTLOptions) (session : SessionArg)
    (sid : String) : getTTL options session sid = getTTLSpec options session sid := by
  rcases options with ⟨ttl⟩
  cases ttl with
  | undefinedV =>
    rcases session with ⟨cookie, rest⟩
    cases cookie with
    | none => rfl
    | some c =>
      rcases c with ⟨maxAge⟩
      cases maxAge <;> rfl
  | numberV n => rfl
  | functionV f => rfl
  | otherV => rfl

/-- The point of an operation's control flow at which a callback invocation
happens: synchronously before the operation's first suspension point,
directly in the continuation after an awaited call, or deferred to a later
event-loop turn through the defer utility (setImmediate). -/
inductive CbTiming where
  | syncSameTick
  | directAfterAwait
  | deferredTick
deriving Repr, DecidableEq

/-- Severity of a message handed to the managed logger. -/
inductive LogLevel where
  | logL
  | warnL
  | errorL
deriving Repr, DecidableEq

/-- The injectable serializer (default JSON): stringify turns a session
object into a string, parse turns a stored string back; either may fail. -/
structure Serializer where
  stringify : StoredObj → Except JsError String
  parse : String → Except JsError StoredObj

/-- One row of the backing session table: record id, unique session key,
nullable serialized payload, and expiration timestamp (ms). -/
structure DBRecord where
  id : String
  sid : String
  data : Option String
  expiresAt : ℤ
deriving Repr, DecidableEq

/-- The backing session table, as the list of its rows. -/
structure StoreDB where
  records : List DBRecord
deriving Repr, DecidableEq

/-- findUnique on the session model: the row with the given session key. -/
def dbFind (db : StoreDB) (sid : String) : Option DBRecord :=
  db.records.find? (fun r => r.sid == sid)

/-- deleteMany with a sid filter: removes every row with that session key
(at most one when keys are unique); never fails on a missing key. -/
def dbDeleteMany (db : StoreDB) (sid : String) : StoreDB :=
  ⟨db.records.filter (fun r => r.sid != sid)⟩

/-- update where sid matches: rewrites the payload and expiration of the
matching row (set() also rewrites sid to the same value, which is the
identity). -/
def dbUpdate (db : StoreDB) (sid : String) (expiresAt : ℤ) (dataStr : String) :
    StoreDB :=
  ⟨db.records.map (fun r =>
    if r.sid == sid then { r with expiresAt := expiresAt, data := some dataStr } else r)⟩

/-- create: appends a new row. -/
def dbCreate (db : StoreDB) (r : DBRecord) : StoreDB :=
  ⟨db.records ++ [r]⟩

/-- The per-key in-flight flag maps isSetting and isTouching: a JavaScript
Map from session key to boolean. -/
abbrev FlagMap := List (String × Bool)

/-- Map.get: the flag stored for a key, none when the key is absent. -/
def flagGet (m : FlagMap) (k : String) : Option Bool :=
  match m with
  | [] => none
  | (k', v) :: rest => if k' == k then some v else flagGet rest k

/-- Map.set: stores a flag value for a key, replacing any previous entry. -/
def flagSet (m : FlagMap) (k : String) (v : Bool) : FlagMap :=
  match m with
  | [] => [(k, v)]
  | (k', v') :: rest =>
    if k' == k then (k, v) :: rest else (k', v') :: flagSet rest k v

/-- Map.delete: removes the entry for a key. -/
def flagDel (m : FlagMap) (k : String) : FlagMap :=
  match m with
  | [] => []
  | (k', v') :: rest => if k' == k then rest else (k', v') :: flagDel rest k

/-- The configuration options of the store that the modelled operations
read.  dbRecordIdFunction is the configured generator with the cuid
fallback already folded in (the source applies the fallback at each call). -/
structure StoreOptions where
  ttl : TTLValue
  roundTTL : Option ℚ
  dbRecordIdIsSessionId : Option Bool
  dbRecordIdFunction : String → String
  enableConcurrentSetInvocationsForSameSessionID : Option Bool
  enableConcurrentTouchInvocationsForSameSessionID : Option Bool
  checkPeriod : Option ℚ

/-- Conversion of a rational to a Date timestamp, truncating toward zero as
the Date constructor does. -/
def jsToTime (q : ℚ) : ℤ :=
  if 0 ≤ q then q.floor else q.ceil

/-- Embedding of createExpiration from src/lib/utils/create-expiration.ts:
the current time, optionally floored to a multiple of the rounding option
(a rounding of 0 is falsy and disables rounding), plus the shelf life. -/
def createExpiration (now : ℤ) (shelfLifeMs : ℚ) (rounding : Option ℚ) : ℤ :=
  jsToTime ((match rounding with
    | some r => if r = 0 then (now : ℚ) else ((((now : ℚ) / r).floor : ℤ) : ℚ) * r
    | none => (now : ℚ)) + shelfLifeMs)

/-- The observable outcome of one public operation whose callback takes an
optional error and an optional result of type α: the resulting table state,
the callback invocations in order (timing, error argument, result
argument), the messages handed to the logger, the promise resolution value,
and the exception propagated to the caller if any. -/
structure OpOutcome (α : Type) where
  db : StoreDB
  cbCalls : List (CbTiming × Option JsError × Option α)
  logs : List LogLevel
  retVal : Option α
  thrown : Option JsError
deriving Repr, DecidableEq

/-- The observable outcome of set() and touch(), which additionally own a
per-key guard flag map and whose callbacks carry only an optional error. -/
structure GuardedOutcome where
  db : StoreDB
  flags : FlagMap
  cbCalls : List (CbTiming × Option JsError)
  logs : List LogLevel
  thrown : Option JsError
deriving Repr, DecidableEq

/-- Embedding of get() from src/lib/prisma-session-store.ts: a failed
connection probe or a missing (or unreadable) row completes the callback
directly with no arguments; a found row whose sid field is truthy and whose
expiration has been reached (now at least expiresAt) is deleted and the
callback completed with no arguments; otherwise the payload (or "\x7b\x7d"
when null) is parsed and delivered, a parse failure being deferred to the
callback as an error. -/
def getOp (conn : Bool) (ser : Serializer) (now : ℤ) (db : StoreDB)
    (sid : String) (findFault : Bool) (deleteFault : Option JsError) :
    OpOutcome StoredObj :=
  if conn = false then
    ⟨db, [(.directAfterAwait, none, none)], [], none, none⟩
  else
    match (if findFault then none else dbFind db sid) with
    | none => ⟨db, [(.directAfterAwait, none, none)], [], none, none⟩
    | some session =>
      if session.sid ≠ "" ∧ now ≥ session.expiresAt then
        match deleteFault with
        | some e => ⟨db, [(.deferredTick, some e, none)], [.logL, .errorL], none, none⟩
        | none =>
          ⟨dbDeleteMany db sid, [(.directAfterAwait, none, none)], [.logL], none, none⟩
      else
        match ser.parse (session.data.getD "{}") with
        | .ok result => ⟨db, [(.deferredTick, none, some result)], [], some result, none⟩
        | .error e => ⟨db, [(.deferredTick, some e, none)], [.errorL], none, none⟩

/-- The per-row parsing pass of all(): each row's payload (or "\x7b\x7d"
when null) is parsed in order, the first failure aborting the whole pass,
exactly as a throw inside Array.prototype.map aborts it. -/
def parsePairs (ser : Serializer) : List DBRecord →
    Except JsError (List (String × StoredObj))
  | [] => .ok []
  | r :: rest =>
    match ser.parse (r.data.getD "{}") with
    | .error e => .error e
    | .ok v =>
      match parsePairs ser rest with
      | .error e => .error e
      | .ok tail => .ok ((r.sid, v) :: tail)

/-- JavaScript object insertion: adding a key to an object keeps the
position of an existing key while replacing its value, and appends a new
key at the end. -/
def objUpsert (m : List (String × StoredObj)) (k : String) (v : StoredObj) :
    List (String × StoredObj) :=
  if m.any (fun p => p.1 == k) then
    m.map (fun p => if p.1 == k then (k, v) else p)
  else m ++ [(k, v)]

/-- The reduce of all(): the parsed pairs folded into one object. -/
def objFromPairs (ps : List (String × StoredObj)) : List (String × StoredObj) :=
  ps.foldl (fun acc p => objUpsert acc p.1 p.2) []

/-- Embedding of all() from src/lib/prisma-session-store.ts: every row is
fetched (with no expiration filter), each payload parsed, and the resulting
object delivered; a findMany rejection or a parse failure is deferred to
the callback as an error. -/
def allOp (conn : Bool) (ser : Serializer) (db : StoreDB)
    (findManyFault : Option JsError) : OpOutcome (List (String × StoredObj)) :=
  if conn = false then
    ⟨db, [(.directAfterAwait, none, none)], [], none, none⟩
  else
    match findManyFault with
    | some e => ⟨db, [(.deferredTick, some e, none)], [.errorL], none, none⟩
    | none =>
      match parsePairs ser db.records with
      | .error e => ⟨db, [(.deferredTick, some e, none)], [.errorL], none, none⟩
      | .ok ps =>
        let result := objFromPairs ps
        ⟨db, [(.deferredTick, none, some result)], [], some result, none⟩

/-- Embedding of ids() from src/lib/prisma-session-store.ts: the session
keys of every row, with a findMany rejection deferred to the callback. -/
def idsOp (conn : Bool) (db : StoreDB) (findManyFault : Option JsError) :
    OpOutcome (List String) :=
  if conn = false then
    ⟨db, [(.directAfterAwait, none, none)], [], none, none⟩
  else
    match findManyFault with
    | some e => ⟨db, [(.deferredTick, some e, none)], [], none, none⟩
    | none =>
      let sids := db.records.map (fun r => r.sid)
      ⟨db, [(.deferredTick, none, some sids)], [], some sids, none⟩

/-- Embedding of length() from src/lib/prisma-session-store.ts: on a failed
connection probe the callback receives a connection Error together with a
count of 0; otherwise the count of every row (with no expiration filter),
with a findMany rejection deferred to the callback. -/
def lengthOp (conn : Bool) (db : StoreDB) (findManyFault : Option JsError) :
    OpOutcome ℕ :=
  if conn = false then
    ⟨db, [(.directAfterAwait, some (.jsError "Could not connect"), some 0)],
      [], none, none⟩
  else
    match findManyFault with
    | some e => ⟨db, [(.deferredTick, some e, none)], [], none, none⟩
    | none =>
      let itemCount := db.records.length
      ⟨db, [(.deferredTick, none, some itemCount)], [], some itemCount, none⟩

/-- Embedding of clear() from src/lib/prisma-session-store.ts: deleteMany
with no filter, a rejection being deferred to the callback. -/
def clearOp (conn : Bool) (db : StoreDB) (deleteManyFault : Option JsError) :
    OpOutcome Unit :=
  if conn = false then
    ⟨db, [(.directAfterAwait, none, none)], [], none, none⟩
  else
    match deleteManyFault with
    | some e => ⟨db, [(.deferredTick, some e, none)], [], none, none⟩
    | none => ⟨⟨[]⟩, [(.deferredTick, none, none)], [], none, none⟩

/-- Embedding of destroy() for a single session key: deleteMany with a sid
filter (success on a missing key), a rejection being deferred to the
callback. -/
def destroyOne (conn : Bool) (db : StoreDB) (sid : String)
    (deleteManyFault : Option JsError) : OpOutcome Unit :=
  if conn = false then
    ⟨db, [(.directAfterAwait, none, none)], [], none, none⟩
  else
    match deleteManyFault with
    | some e => ⟨db, [(.deferredTick, some e, none)], [], none, none⟩
    | none => ⟨dbDeleteMany db sid, [(.deferredTick, none, none)], [], none, none⟩

/-- Embedding of destroy() for an array of session keys: each key is handed
to a recursive single-key call carrying the same callback (each such call
probes the connection and completes the shared callback itself), and after
they have all settled the outer call completes the shared callback once
more. -/
def destroyArr (conn : Bool) (db : StoreDB) (sids : List String)
    (deleteManyFault : Option JsError) : OpOutcome Unit :=
  if conn = false then
    ⟨db, [(.directAfterAwait, none, none)], [], none, none⟩
  else
    let inner := sids.foldl
      (fun (acc : StoreDB × List (CbTiming × Option JsError × Option Unit)) sid =>
        let o := destroyOne conn acc.1 sid deleteManyFault
        (o.db, acc.2 ++ o.cbCalls))
      (db, [])
    ⟨inner.1, inner.2 ++ [(.deferredTick, none, none)], [], none, none⟩

/-- The guard check of set(): concurrent invocations for the same sid are
rejected unless the escape hatch option is exactly true. -/
def setGuardHeld (options : StoreOptions) (flags : FlagMap) (sid : String) : Prop :=
  options.enableConcurrentSetInvocationsForSameSessionID ≠ some true ∧
    flagGet flags sid = some true

instance (options : StoreOptions) (flags : FlagMap) (sid : String) :
    Decidable (setGuardHeld options flags sid) :=
  inferInstanceAs (Decidable (And _ _))

/-- The guard check of touch(), analogous to the one of set(). -/
def touchGuardHeld (options : StoreOptions) (flags : FlagMap) (sid : String) : Prop :=
  options.enableConcurrentTouchInvocationsForSameSessionID ≠ some true ∧
    flagGet flags sid = some true

instance (options : StoreOptions) (flags : FlagMap) (sid : String) :
    Decidable (touchGuardHeld options flags sid) :=
  inferInstanceAs (Decidable (And _ _))

/-- The record id chosen by set() when creating a row: the session key when
dbRecordIdIsSessionId is truthy, else the configured id generator. -/
def chooseRecordId (options : StoreOptions) (sid : String) : String :=
  if options.dbRecordIdIsSessionId = some true then sid
  else options.dbRecordIdFunction sid

/-- Embedding of set() from src/lib/prisma-session-store.ts.  In order: the
guard check (synchronous, before the first await) drops the call with a
warning; the connection probe short-circuits; the in-flight flag is set;
a TTL resolution failure clears the flag, logs, and rethrows; a stringify
failure clears the flag and defers the error to the callback; the row is
looked up (a lookup rejection is treated as absence); the row is updated in
place or created with the chosen record id; a write rejection clears the
flag and defers the error; on success the flag is cleared and the callback
deferred with no arguments. -/
def setOp (conn : Bool) (options : StoreOptions) (ser : Serializer) (now : ℤ)
    (db : StoreDB) (flags : FlagMap) (sid : String) (session : SessionArg)
    (findFault : Bool) (writeFault : Option JsError) : GuardedOutcome :=
  if setGuardHeld options flags sid then
    ⟨db, flags, [(.syncSameTick, none)], [.warnL], none⟩
  else if conn = false then
    ⟨db, flags, [(.directAfterAwait, none)], [], none⟩
  else
    let flags1 := flagSet flags sid true
    match getTTL ⟨options.ttl⟩ session sid with
    | .error e => ⟨db, flagSet flags1 sid false, [], [.errorL], some e⟩
    | .ok ttl =>
      let expiresAt := createExpiration now ttl options.roundTTL
      match ser.stringify session.toObj with
      | .error e =>
        ⟨db, flagSet flags1 sid false, [(.deferredTick, some e)], [.errorL], none⟩
      | .ok sessionString =>
        let existingSession := if findFault then none else dbFind db sid
        match writeFault with
        | some e =>
          ⟨db, flagSet flags1 sid false, [(.deferredTick, some e)], [.errorL], none⟩
        | none =>
          let db' :=
            match existingSession with
            | some _ => dbUpdate db sid expiresAt sessionString
            | none =>
              dbCreate db
                ⟨chooseRecordId options sid, sid, some sessionString, expiresAt⟩
          ⟨db', flagSet flags1 sid false, [(.deferredTick, none)], [], none⟩

/-- Embedding of touch() from src/lib/prisma-session-store.ts.  In order:
the guard check (synchronous) drops the call with a warning; the connection
probe short-circuits; the in-flight flag is set; inside the protected block
the TTL is resolved, the row looked up, its payload parsed, the cookie
substructure of the argument merged over it, and the row rewritten with the
new expiration; a missing row is a silent no-op; any failure is deferred to
the callback as an error; the flag entry is removed on every path. -/
def touchOp (conn : Bool) (options : StoreOptions) (ser : Serializer) (now : ℤ)
    (db : StoreDB) (flags : FlagMap) (sid : String) (session : SessionArg)
    (findFault : Option JsError) (writeFault : Option JsError) : GuardedOutcome :=
  if touchGuardHeld options flags sid then
    ⟨db, flags, [(.syncSameTick, none)], [.warnL], none⟩
  else if conn = false then
    ⟨db, flags, [(.directAfterAwait, none)], [], none⟩
  else
    let flags1 := flagSet flags sid true
    let fin := flagDel flags1 sid
    match getTTL ⟨options.ttl⟩ session sid with
    | .error e => ⟨db, fin, [(.deferredTick, some e)], [.errorL], none⟩
    | .ok ttl =>
      let expiresAt := createExpiration now ttl options.roundTTL
      match findFault with
      | some e => ⟨db, fin, [(.deferredTick, some e)], [.errorL], none⟩
      | none =>
        match dbFind db sid with
        | none => ⟨db, fin, [(.deferredTick, none)], [], none⟩
        | some existingSession =>
          match ser.parse (existingSession.data.getD "{}") with
          | .error e => ⟨db, fin, [(.deferredTick, some e)], [.errorL], none⟩
          | .ok parsed =>
            match ser.stringify { parsed with cookie := session.cookie } with
            | .error e => ⟨db, fin, [(.deferredTick, some e)], [.errorL], none⟩
            | .ok dataStr =>
              match writeFault with
              | some e => ⟨db, fin, [(.deferredTick, some e)], [.errorL], none⟩
              | none =>
                ⟨dbUpdate db existingSession.sid expiresAt dataStr, fin,
                  [(.deferredTick, none)], [], none⟩

/-- The process-local scheduler and connection state of one engine
instance: whether the checkInterval field currently holds a handle (the
source never clears this field, only the timer it points to), whether a
live recurring prune timer is scheduled, and the invalidConnection flag. -/
structure EngineState where
  checkIntervalSet : Bool
  timerActive : Bool
  invalidConnection : Bool
deriving Repr, DecidableEq

/-- Embedding of startInterval(): a no-op whenever the checkInterval field
already holds a handle; otherwise, when a nonzero numeric checkPeriod is
configured, a recurring timer is scheduled and the field set. -/
def startIntervalStep (checkPeriod : Option ℚ) (s : EngineState) : EngineState :=
  if s.checkIntervalSet then s
  else
    match checkPeriod with
    | some ms =>
      if ms ≠ 0 then { s with checkIntervalSet := true, timerActive := true }
      else s
    | none => s

/-- Embedding of stopInterval(): clears the running timer when the
checkInterval field holds a handle, but leaves the field itself set. -/
def stopIntervalStep (s : EngineState) : EngineState :=
  if s.checkIntervalSet then { s with timerActive := false } else s

/-- Embedding of validateConnection(): a successful probe clears the
invalidConnection flag and calls startInterval; a failed probe sets the
flag, calls stopInterval, and logs the diagnostic; the returned boolean
is the negation of the flag. -/
def validateConnectionStep (checkPeriod : Option ℚ) (probeOk : Bool)
    (s : EngineState) : EngineState × Bool :=
  if probeOk then
    let s' := startIntervalStep checkPeriod
      { s with invalidConnection := false }
    (s', !s'.invalidConnection)
  else
    let s' := stopIntervalStep { s with invalidConnection := true }
    (s', !s'.invalidConnection)

/-- The engine state right after construction: the constructor calls
startInterval on a fresh instance with no handle and a valid connection. -/
def initialEngineState (checkPeriod : Option ℚ) : EngineState :=
  startIntervalStep checkPeriod
    ⟨false, false, false⟩

/-- The phase of one in-flight set() invocation in the event-loop
interleaving model: ready (the call is scheduled but its body has not
started), suspended at one of its awaited calls (the connection probe, the
row lookup, the row write), or finished in one of the terminal ways. -/
inductive TPhase where
  | ready
  | awaitingValidate
  | awaitingFind (sessionString : String)
  | awaitingWrite (sessionString : String) (existing : Bool)
  | droppedByGuard
  | completedNoConn
  | completedErr
  | failedUnique
  | completedOk
deriving Repr, DecidableEq

/-- One scheduled set() invocation: its key, its payload, and its phase. -/
structure SetTask where
  sid : String
  payload : SessionArg
  phase : TPhase
deriving Repr, DecidableEq

/-- The shared state over which concurrent set() invocations interleave:
the table, the isSetting flag map, the tasks, and the count of warnings
emitted by the guard. -/
structure TraceState where
  db : StoreDB
  flags : FlagMap
  tasks : List SetTask
  warns : ℕ
deriving Repr, DecidableEq

/-- The configuration shared by the interleaved set() invocations. -/
structure TraceCfg where
  options : StoreOptions
  ser : Serializer
  now : ℤ
  conn : Bool

/-- Runs task i of the trace up to its next suspension point, executing the
awaited call it was suspended on first, exactly as the event loop resumes
an async function: the ready phase runs the synchronous prologue (the guard
check); resuming from the connection probe sets the in-flight flag,
resolves the TTL and serializes (here assumed to succeed unless the
serializer fails), then suspends on the row lookup; resuming from the
lookup records whether a row existed and suspends on the write; resuming
from the write performs it against the current table (a create finding the
unique key already taken fails with a constraint violation), clears the
flag and finishes. -/
def setTaskStep (cfg : TraceCfg) (st : TraceState) (i : ℕ) : TraceState :=
  match st.tasks.get? i with
  | none => st
  | some t =>
    match t.phase with
    | .ready =>
      if setGuardHeld cfg.options st.flags t.sid then
        { st with
          tasks := st.tasks.set i { t with phase := .droppedByGuard },
          warns := st.warns + 1 }
      else
        { st with tasks := st.tasks.set i { t with phase := .awaitingValidate } }
    | .awaitingValidate =>
      if cfg.conn = false then
        { st with tasks := st.tasks.set i { t with phase := .completedNoConn } }
      else
        let flags1 := flagSet st.flags t.sid true
        match getTTL ⟨cfg.options.ttl⟩ t.payload t.sid with
        | .error _ =>
          { st with
            flags := flagSet flags1 t.sid false,
            tasks := st.tasks.set i { t with phase := .completedErr } }
        | .ok _ =>
          match cfg.ser.stringify t.payload.toObj with
          | .error _ =>
            { st with
              flags := flagSet flags1 t.sid false,
              tasks := st.tasks.set i { t with phase := .completedErr } }
          | .ok s =>
            { st with
              flags := flags1,
              tasks := st.tasks.set i { t with phase := .awaitingFind s } }
    | .awaitingFind s =>
      let existing := (dbFind st.db t.sid).isSome
      { st with tasks := st.tasks.set i { t with phase := .awaitingWrite s existing } }
    | .awaitingWrite s existing =>
      let ttl := (getTTL ⟨cfg.options.ttl⟩ t.payload t.sid).toOption.getD 0
      let expiresAt := createExpiration cfg.now ttl cfg.options.roundTTL
      if existing then
        { st with
          db := dbUpdate st.db t.sid expiresAt s,
          flags := flagSet st.flags t.sid false,
          tasks := st.tasks.set i { t with phase := .completedOk } }
      else if (dbFind st.db t.sid).isSome then
        { st with
          flags := flagSet st.flags t.sid false,
          tasks := st.tasks.set i { t with phase := .failedUnique } }
      else
        { st with
          db := dbCreate st.db
            ⟨chooseRecordId cfg.options t.sid, t.sid, some s, expiresAt⟩,
          flags := flagSet st.flags t.sid false,
          tasks := st.tasks.set i { t with phase := .completedOk } }
    | _ => st

/-- Runs a whole schedule, one resumed task index at a time. -/
def runSetSchedule (cfg : TraceCfg) (st : TraceState) (schedule : List ℕ) :
    TraceState :=
  schedule.foldl (setTaskStep cfg) st

/-- The empty session object, the parse of the string "\x7b\x7d". -/
def emptyObj : StoredObj := ⟨[], none⟩

/-- A deterministic encoding of a session object used by the test
serializer. -/
def encodeObj (o : StoredObj) : String :=
  String.intercalate ";" (o.fields.map (fun p => p.1 ++ "=" ++ p.2))

/-- A concrete total serializer used as test input: stringify encodes the
plain fields, parse maps "\x7b\x7d" to the empty object and wraps any
other string. -/
def stubSerializer : Serializer where
  stringify := fun o => .ok (if o.fields.isEmpty then "{}" else encodeObj o)
  parse := fun s => .ok (if s = "{}" then emptyObj else ⟨[("raw", s)], none⟩)

/-- A serializer whose parse always fails, used to exercise the
parse-error paths. -/
def failingParse : Serializer where
  stringify := fun _ => .ok "{}"
  parse := fun _ => .error (.raw "unparseable payload")

/-- A baseline options object used as concrete test input: numeric ttl,
no rounding, session key as record id, both escape hatches left unset,
and a one-second check period. -/
def testOptions : StoreOptions where
  ttl := .numberV 1000
  roundTTL := none
  dbRecordIdIsSessionId := some true
  dbRecordIdFunction := fun s => String.append "cuid-" s
  enableConcurrentSetInvocationsForSameSessionID := none
  enableConcurrentTouchInvocationsForSameSessionID := none
  checkPeriod := some 1000

/-- A found row carries the looked-up session key. -/
theorem dbFind_sid {db : StoreDB} {sid : String} {r : DBRecord}
    (h : dbFind db sid = some r) : r.sid = sid := by
  have hp := List.find?_some h
  simpa using hp

def c2DB : StoreDB := ⟨[⟨"r0", "", some "{}", 0⟩]⟩

/-- C2 counterexample: for the key "" with a stored record whose expiration
(0) has passed at time 5, get does not delete the record and completes with
the parsed payload as its result, because the source skips the expiry check
when the stored sid field is falsy. -/
theorem get_expired_empty_sid_kept :
    dbFind c2DB "" = some ⟨"r0", "", some "{}", 0⟩ ∧
    (5:ℤ) ≥ (0:ℤ) ∧
    (getOp true stubSerializer 5 c2DB "" false none).db = c2DB ∧
    (getOp true stubSerializer 5 c2DB "" false none).cbCalls =
      [(.deferredTick, none, some emptyObj)] ∧
    (getOp true stubSerializer 5 c2DB "" false none).retVal = some emptyObj := by
  decide

/-- C2 amended: for every nonempty key, get with a healthy connection and no
injected faults completes with no error and no result when no record
exists; deletes the record and completes with no result when one exists
whose expiration has been reached (equality counting as expired); and
otherwise parses the payload and returns it, a parse failure being
surfaced as an error rather than as absence. -/
theorem get_behaviour (ser : Serializer) (now : ℤ) (db : StoreDB) (sid : String)
    (hsid : sid ≠ "") :
    (dbFind db sid = none →
      getOp true ser now db sid false none =
        ⟨db, [(.directAfterAwait, none, none)], [], none, none⟩) ∧
    (∀ r, dbFind db sid = some r → now ≥ r.expiresAt →
      getOp true ser now db sid false none =
        ⟨dbDeleteMany db sid, [(.directAfterAwait, none, none)], [.logL], none, none⟩) ∧
    (∀ r v, dbFind db sid = some r → now < r.expiresAt →
      ser.parse (r.data.getD "{}") = .ok v →
      getOp true ser now db sid false none =
        ⟨db, [(.deferredTick, none, some v)], [], some v, none⟩) ∧
    (∀ r e, dbFind db sid = some r → now < r.expiresAt →
      ser.parse (r.data.getD "{}") = .error e →
      getOp true ser now db sid false none =
        ⟨db, [(.deferredTick, some e, none)], [.errorL], none, none⟩) := by
  refine ⟨?_, ?_, ?_, ?_⟩
  · intro h
    simp [getOp, h]
  · intro r hr hexp
    have hs := dbFind_sid hr
    have hcond : r.sid ≠ "" ∧ now ≥ r.expiresAt := ⟨by rw [hs]; exact hsid, hexp⟩
    simp [getOp, hr, hcond]
  · intro r v hr hexp hp
    have : ¬ (r.sid ≠ "" ∧ now ≥ r.expiresAt) := by
      rintro ⟨-, h2⟩; omega
    simp [getOp, hr, this, hp]
  · intro r e hr hexp hp
    have : ¬ (r.sid ≠ "" ∧ now ≥ r.expiresAt) := by
      rintro ⟨-, h2⟩; omega
    simp [getOp, hr, this, hp]

/-- C2 witness: at key "sid-1" with a record expiring exactly now (50), get
deletes the record and completes with no arguments. -/
theorem get_behaviour_witness :
    ("sid-1" : String) ≠ "" ∧
    getOp true stubSerializer 50 ⟨[⟨"r1", "sid-1", some "{}", 50⟩]⟩ "sid-1" false none =
      ⟨⟨[]⟩, [(.directAfterAwait, none, none)], [.logL], none, none⟩ :=
  ⟨by decide, by
    have h :=
      (get_behaviour stubSerializer 50 ⟨[⟨"r1", "sid-1", some "{}", 50⟩]⟩ "sid-1"
        (by decide)).2.1 ⟨"r1", "sid-1", some "{}", 50⟩ (by decide) (by decide)
    exact h.trans (by decide)⟩

theorem parsePairs_keys {ser : Serializer} :
    ∀ {recs : List DBRecord} {ps : List (String × StoredObj)},
      parsePairs ser recs = .ok ps →
      ps.map Prod.fst = recs.map (fun r => r.sid)
  | [], ps, h => by
    simp [parsePairs] at h
    simp [← h]
  | r :: rest, ps, h => by
    revert h
    simp only [parsePairs]
    cases hp : ser.parse (r.data.getD "{}") with
    | error e => intro h; cases h
    | ok v =>
      cases ht : parsePairs ser rest with
      | error e => intro h; cases h
      | ok tail =>
        intro h
        cases h
        simp [parsePairs_keys ht]

theorem foldl_objUpsert (ps : List (String × StoredObj)) :
    ∀ acc : List (String × StoredObj),
      (ps.map Prod.fst).Nodup →
      (∀ k ∈ ps.map Prod.fst, acc.any (fun p => p.1 == k) = false) →
      ps.foldl (fun a p => objUpsert a p.1 p.2) acc = acc ++ ps := by
  induction ps with
  | nil => intro acc _ _; simp
  | cons hd tl ih =>
    intro acc hnd hdisj
    simp only [List.foldl_cons]
    have hany := hdisj hd.1 (by simp)
    have hup : objUpsert acc hd.1 hd.2 = acc ++ [hd] := by
      simp [objUpsert, hany]
    rw [hup]
    rw [List.map_cons, List.nodup_cons] at hnd
    have hdisj' : ∀ k ∈ tl.map Prod.fst,
        (acc ++ [hd]).any (fun p => p.1 == k) = false := by
      intro k hk
      have h1 := hdisj k (by simp [hk])
      have h2 : (hd.1 == k) = false := by
        rcases List.mem_map.mp hk with ⟨p, hp, rfl⟩
        have : hd.1 ≠ p.1 := fun hEq => hnd.1 (hEq ▸ List.mem_map_of_mem Prod.fst hp)
        simpa using this
      simp [List.any_append, h1, h2]
    rw [ih (acc ++ [hd]) hnd.2 hdisj']
    simp

theorem objFromPairs_eq_self {ps : List (String × StoredObj)}
    (hnd : (ps.map Prod.fst).Nodup) : objFromPairs ps = ps := by
  have := foldl_objUpsert ps [] hnd (by intro k _; simp)
  simpa [objFromPairs] using this

theorem parsePairs_lookup {ser : Serializer} :
    ∀ {recs : List DBRecord} {ps : List (String × StoredObj)} {r : DBRecord}
      {v : StoredObj},
      (recs.map (fun r => r.sid)).Nodup →
      parsePairs ser recs = .ok ps →
      r ∈ recs →
      ser.parse (r.data.getD "{}") = .ok v →
      ps.lookup r.sid = some v
  | [], _, _, _, _, _, hmem, _ => by cases hmem
  | r0 :: rest, ps, r, v, hnd, h, hmem, hp => by
    revert h
    simp only [parsePairs]
    cases hp0 : ser.parse (r0.data.getD "{}") with
    | error e => intro h; cases h
    | ok v0 =>
      cases ht : parsePairs ser rest with
      | error e => intro h; cases h
      | ok tail =>
        intro h
        cases h
        rw [List.map_cons, List.nodup_cons] at hnd
        rcases List.mem_cons.mp hmem with rfl | hmem'
        · rw [hp0] at hp
          cases hp
          simp [List.lookup]
        · have hne : (r.sid == r0.sid) = false := by
            have : r.sid ≠ r0.sid := by
              intro hEq
              exact hnd.1 (hEq ▸ List.mem_map_of_mem (fun x => x.sid) hmem')
            simpa using this
          simp only [List.lookup, hne]
          exact parsePairs_lookup hnd.2 ht hmem' hp

def c3DB : StoreDB := ⟨[⟨"r2", "sid-2", some "x", 0⟩]⟩

/-- C3 counterexample: with a single stored record whose expiration (0) has
long passed (now = 100), all() still returns a map containing that record's
parsed payload, because the source fetches every row with no expiration
filter; the claim requires the expired row to be excluded. -/
theorem all_includes_expired :
    (100:ℤ) ≥ (0:ℤ) ∧
    (allOp true stubSerializer c3DB none).retVal =
      some [("sid-2", ⟨[("raw", "x")], none⟩)] ∧
    (allOp true stubSerializer c3DB none).cbCalls =
      [(.deferredTick, none, some [("sid-2", ⟨[("raw", "x")], none⟩)])] := by
  decide

/-- C3 amended: with unique session keys, all() returns a map containing
exactly every stored record's parsed payload keyed by its session key —
expired-but-not-yet-pruned rows included — and a record whose stored
payload is null contributes the parse of "\x7b\x7d" (the empty object for
a JSON-like serializer) rather than an error; a parse failure is surfaced
as an error. -/
theorem all_behaviour (ser : Serializer) (db : StoreDB)
    (hnd : (db.records.map (fun r => r.sid)).Nodup) :
    (∀ e, parsePairs ser db.records = .error e →
      allOp true ser db none =
        ⟨db, [(.deferredTick, some e, none)], [.errorL], none, none⟩) ∧
    (∀ ps, parsePairs ser db.records = .ok ps →
      allOp true ser db none =
        ⟨db, [(.deferredTick, none, some ps)], [], some ps, none⟩ ∧
      ps.map Prod.fst = db.records.map (fun r => r.sid) ∧
      (∀ r v, r ∈ db.records → ser.parse (r.data.getD "{}") = .ok v →
        ps.lookup r.sid = some v) ∧
      (∀ r, r ∈ db.records → r.data = none → ser.parse "{}" = .ok emptyObj →
        ps.lookup r.sid = some emptyObj)) := by
  constructor
  · intro e h
    simp [allOp, h]
  · intro ps h
    have hkeys := parsePairs_keys h
    have hobj : objFromPairs ps = ps :=
      objFromPairs_eq_self (hkeys ▸ hnd)
    refine ⟨by simp [allOp, h, hobj], hkeys, ?_, ?_⟩
    · intro r v hmem hp
      exact parsePairs_lookup hnd h hmem hp
    · intro r hmem hdata hempty
      refine parsePairs_lookup hnd h hmem ?_
      rw [hdata]
      exact hempty

def c3WDB : StoreDB := ⟨[⟨"r2", "sid-2", some "x", 0⟩, ⟨"r3", "sid-3", none, 10⟩]⟩

def c3Pairs : List (String × StoredObj) :=
  [("sid-2", ⟨[("raw", "x")], none⟩), ("sid-3", emptyObj)]

/-- C3 witness: on a table with one expired record and one record whose
payload is null, all() delivers both — the null one as the empty object. -/
theorem all_behaviour_witness :
    allOp true stubSerializer c3WDB none =
      ⟨c3WDB, [(.deferredTick, none, some c3Pairs)], [], some c3Pairs, none⟩ ∧
    c3Pairs.lookup "sid-3" = some emptyObj := by
  have h := (all_behaviour stubSerializer c3WDB (by decide)).2 c3Pairs rfl
  refine ⟨h.1, ?_⟩
  exact h.2.2.2 ⟨"r3", "sid-3", none, 10⟩ (by decide) rfl rfl

/-- C4 counterexample: length() invoked while the connection is degraded
passes an Error value (and a count of 0) to its callback, contradicting the
claim that no operation's callback receives an Error on the degraded
path. -/
theorem length_degraded_passes_error :
    (lengthOp false ⟨[]⟩ none).cbCalls =
      [(.directAfterAwait, some (.jsError "Could not connect"), some 0)] := by
  decide

/-- C4 amended: every public operation invoked while the connection is
degraded performs no store effect, and every operation except length()
invokes its callback with no result and no error; length() instead invokes
its callback with a connection Error and a count of 0.  The set()/touch()
clauses assume the call is not already rejected by the per-key guard, which
is checked before the connection probe. -/
theorem degraded_ops_noop (options : StoreOptions) (ser : Serializer)
    (now : ℤ) (db : StoreDB) (flags : FlagMap) (sid : String)
    (session : SessionArg) (sids : List String) (findFault : Bool)
    (findFault2 deleteFault writeFault fmFault dmFault : Option JsError)
    (hset : ¬ setGuardHeld options flags sid)
    (htouch : ¬ touchGuardHeld options flags sid) :
    getOp false ser now db sid findFault deleteFault =
      ⟨db, [(.directAfterAwait, none, none)], [], none, none⟩ ∧
    setOp false options ser now db flags sid session findFault writeFault =
      ⟨db, flags, [(.directAfterAwait, none)], [], none⟩ ∧
    touchOp false options ser now db flags sid session findFault2 writeFault =
      ⟨db, flags, [(.directAfterAwait, none)], [], none⟩ ∧
    destroyOne false db sid dmFault =
      ⟨db, [(.directAfterAwait, none, none)], [], none, none⟩ ∧
    destroyArr false db sids dmFault =
      ⟨db, [(.directAfterAwait, none, none)], [], none, none⟩ ∧
    allOp false ser db fmFault =
      ⟨db, [(.directAfterAwait, none, none)], [], none, none⟩ ∧
    idsOp false db fmFault =
      ⟨db, [(.directAfterAwait, none, none)], [], none, none⟩ ∧
    clearOp false db dmFault =
      ⟨db, [(.directAfterAwait, none, none)], [], none, none⟩ ∧
    lengthOp false db fmFault =
      ⟨db, [(.directAfterAwait, some (.jsError "Could not connect"), some 0)],
        [], none, none⟩ := by
  refine ⟨rfl, ?_, ?_, rfl, rfl, rfl, rfl, rfl, rfl⟩
  · simp [setOp, hset]
  · simp [touchOp, htouch]

/-- C4 witness: a degraded get on a sample store completes with no
arguments and leaves the table untouched. -/
theorem degraded_ops_noop_witness :
    ¬ setGuardHeld testOptions [] "sid-0" ∧
    getOp false stubSerializer 0 c3DB "sid-0" false none =
      ⟨c3DB, [(.directAfterAwait, none, none)], [], none, none⟩ :=
  ⟨by decide, by
    exact (degraded_ops_noop testOptions stubSerializer 0 c3DB [] "sid-0"
      ⟨none, []⟩ [] false none none none none none (by decide) (by decide)).1⟩

/-- The TTL resolver fails only when the ttl option is set to a value that
is neither a number nor a function, and then with the configuration
TypeError. -/
theorem getTTL_error {o : TTLOptions} {s : SessionArg} {k : String} {e : JsError}
    (h : getTTL o s k = .error e) :
    o.ttl = .otherV ∧
      e = .typeError "options.ttl must be a number or function." := by
  rcases o with ⟨ttl⟩
  cases ttl with
  | undefinedV => simp [getTTL] at h
  | numberV n => simp [getTTL] at h
  | functionV f => simp [getTTL] at h
  | otherV =>
    simp [getTTL] at h
    exact ⟨rfl, h.symm⟩

/-- C5 counterexample: set() with a ttl option that is set but neither a
number nor a function propagates the configuration TypeError to its caller
(a rejected promise) and never invokes the supplied callback, contradicting
the claim that no operation ever propagates an exception. -/
theorem set_invalid_ttl_throws :
    (setOp true { testOptions with ttl := .otherV } stubSerializer 100 ⟨[]⟩ []
        "sid-0" ⟨none, []⟩ false none).thrown =
      some (.typeError "options.ttl must be a number or function.") ∧
    (setOp true { testOptions with ttl := .otherV } stubSerializer 100 ⟨[]⟩ []
        "sid-0" ⟨none, []⟩ false none).cbCalls = [] := by
  decide

/-- C5 amended: no public operation propagates an exception to its caller,
with the single exception of set() when the ttl option is set but neither a
number nor a function: that configuration TypeError is rethrown (per the
repository's own tests); every other failure — serializer, lookup, write,
bulk-delete — is delivered through the callback's error argument or a
resolved empty result. -/
theorem ops_throw_only_invalid_ttl (conn : Bool) (options : StoreOptions)
    (ser : Serializer) (now : ℤ) (db : StoreDB) (flags : FlagMap)
    (sid : String) (session : SessionArg) (sids : List String)
    (findFault : Bool) (findFault2 deleteFault writeFault fmFault dmFault : Option JsError) :
    ((setOp conn options ser now db flags sid session findFault writeFault).thrown ≠ none →
      options.ttl = .otherV ∧
      (setOp conn options ser now db flags sid session findFault writeFault).thrown =
        some (.typeError "options.ttl must be a number or function.")) ∧
    (touchOp conn options ser now db flags sid session findFault2 writeFault).thrown = none ∧
    (getOp conn ser now db sid findFault deleteFault).thrown = none ∧
    (allOp conn ser db fmFault).thrown = none ∧
    (idsOp conn db fmFault).thrown = none ∧
    (lengthOp conn db fmFault).thrown = none ∧
    (clearOp conn db dmFault).thrown = none ∧
    (destroyOne conn db sid dmFault).thrown = none ∧
    (destroyArr conn db sids dmFault).thrown = none := by
  refine ⟨?_, ?_, ?_, ?_, ?_, ?_, ?_, ?_, ?_⟩
  · unfold setOp
    split
    · intro h; exact absurd rfl h
    split
    · intro h; exact absurd rfl h
    cases hg : getTTL ⟨options.ttl⟩ session sid with
    | error e =>
      intro _
      rcases getTTL_error hg with ⟨h1, h2⟩
      subst h2
      refine ⟨h1, ?_⟩
      simp [hg]
    | ok ttl =>
      simp only [hg]
      cases hs : ser.stringify session.toObj with
      | error e => intro h; exact absurd rfl h
      | ok sessionString =>
        simp only [hs]
        cases writeFault with
        | some e => intro h; exact absurd rfl h
        | none =>
          cases (if findFault then none else dbFind db sid) with
          | some r => intro h; exact absurd rfl h
          | none => intro h; exact absurd rfl h
  · unfold touchOp
    split
    · rfl
    split
    · rfl
    cases hg : getTTL ⟨options.ttl⟩ session sid with
    | error e => simp [hg]
    | ok ttl =>
      simp only [hg]
      cases findFault2 with
      | some e => rfl
      | none =>
        cases hf : dbFind db sid with
        | none => simp [hf]
        | some r =>
          simp only [hf]
          cases hp : ser.parse (r.data.getD "{}") with
          | error e => simp [hp]
          | ok parsed =>
            simp only [hp]
            cases hst : ser.stringify { parsed with cookie := session.cookie } with
            | error e => simp [hst]
            | ok dataStr =>
              simp only [hst]
              cases writeFault with
              | some e => rfl
              | none => rfl
  · unfold getOp
    split
    · rfl
    cases hf : (if findFault then none else dbFind db sid) with
    | none => simp [hf]
    | some r =>
      simp only [hf]
      split
      · cases deleteFault with
        | some e => rfl
        | none => rfl
      · cases hp : ser.parse (r.data.getD "{}") with
        | ok v => simp [hp]
        | error e => simp [hp]
  · unfold allOp
    split
    · rfl
    cases fmFault with
    | some e => rfl
    | none =>
      cases hp : parsePairs ser db.records with
      | error e => simp [hp]
      | ok ps => simp [hp]
  · unfold idsOp
    split
    · rfl
    cases fmFault with
    | some e => rfl
    | none => rfl
  · unfold lengthOp
    split
    · rfl
    cases fmFault with
    | some e => rfl
    | none => rfl
  · unfold clearOp
    split
    · rfl
    cases dmFault with
    | some e => rfl
    | none => rfl
  · unfold destroyOne
    split
    · rfl
    cases dmFault with
    | some e => rfl
    | none => rfl
  · unfold destroyArr
    split
    · rfl
    · rfl

/-- C5 witness: the only throwing path, exercised: set() with an invalid
ttl option rethrows the configuration TypeError. -/
theorem ops_throw_only_invalid_ttl_witness :
    ({ testOptions with ttl := .otherV } : StoreOptions).ttl = .otherV ∧
    (setOp true { testOptions with ttl := .otherV } stubSerializer 100 ⟨[]⟩ []
        "sid-0" ⟨none, []⟩ false none).thrown =
      some (.typeError "options.ttl must be a number or function.") := by
  have h := (ops_throw_only_invalid_ttl true { testOptions with ttl := .otherV }
    stubSerializer 100 ⟨[]⟩ [] "sid-0" ⟨none, []⟩ [] false none none none none
    none).1 (by decide)
  exact ⟨h.1, h.2⟩

def heldFlags : FlagMap := [("sid-0", true)]

/-- C6 counterexample: a set() call arriving while the per-key guard flag
for its key is held invokes its callback synchronously within the
registering call (before the operation's first suspension point),
contradicting the claim that callbacks are always deferred to a subsequent
turn of the event loop. -/
theorem set_guard_callback_sync :
    (setOp true testOptions stubSerializer 100 ⟨[]⟩ heldFlags "sid-0"
      ⟨none, []⟩ false none).cbCalls = [(.syncSameTick, none)] := by
  decide

/-- Every callback invocation of the inner per-key loop of destroy() on an
array, with a healthy connection, is deferred. -/
theorem destroyArr_inner_deferred (sids : List String) (dmFault : Option JsError) :
    ∀ acc : StoreDB × List (CbTiming × Option JsError × Option Unit),
      (∀ c ∈ acc.2, c.1 = CbTiming.deferredTick) →
      ∀ c ∈ (sids.foldl (fun acc sid =>
          let o := destroyOne true acc.1 sid dmFault
          (o.db, acc.2 ++ o.cbCalls)) acc).2,
        c.1 = CbTiming.deferredTick := by
  induction sids with
  | nil => intro acc h c hc; exact h c hc
  | cons hd tl ih =>
    intro acc h c hc
    refine ih _ ?_ c hc
    intro c' hc'
    rcases List.mem_append.mp hc' with h1 | h2
    · exact h c' h1
    · cases dmFault with
      | some e =>
        simp [destroyOne] at h2
        simp [h2]
      | none =>
        simp [destroyOne] at h2
        simp [h2]

/-- C6 amended: completion callbacks that follow a store access (success
and error results alike) are deferred through the defer utility; but the
degraded-connection paths invoke the callback directly in the continuation
after the connection probe, get() invokes it directly on its miss and
expired-deletion paths (always with no arguments), and the
concurrency-guard rejection of set() and touch() invokes it synchronously
within the registering call. -/
theorem callback_timing (options : StoreOptions) (ser : Serializer) (now : ℤ)
    (db : StoreDB) (flags : FlagMap) (sid : String) (session : SessionArg)
    (sids : List String) (findFault : Bool)
    (findFault2 deleteFault writeFault fmFault dmFault : Option JsError) :
    (setGuardHeld options flags sid →
      ∀ conn, (setOp conn options ser now db flags sid session findFault
        writeFault).cbCalls = [(.syncSameTick, none)]) ∧
    (¬ setGuardHeld options flags sid →
      (setOp false options ser now db flags sid session findFault
        writeFault).cbCalls = [(.directAfterAwait, none)] ∧
      ∀ c ∈ (setOp true options ser now db flags sid session findFault
        writeFault).cbCalls, c.1 = CbTiming.deferredTick) ∧
    (touchGuardHeld options flags sid →
      ∀ conn, (touchOp conn options ser now db flags sid session findFault2
        writeFault).cbCalls = [(.syncSameTick, none)]) ∧
    (¬ touchGuardHeld options flags sid →
      (touchOp false options ser now db flags sid session findFault2
        writeFault).cbCalls = [(.directAfterAwait, none)] ∧
      ∀ c ∈ (touchOp true options ser now db flags sid session findFault2
        writeFault).cbCalls, c.1 = CbTiming.deferredTick) ∧
    ((getOp false ser now db sid findFault deleteFault).cbCalls =
      [(.directAfterAwait, none, none)] ∧
      ∀ c ∈ (getOp true ser now db sid findFault deleteFault).cbCalls,
        c.1 = CbTiming.deferredTick ∨
          (c.1 = CbTiming.directAfterAwait ∧ c.2.1 = none ∧ c.2.2 = none)) ∧
    (∀ c ∈ (allOp true ser db fmFault).cbCalls, c.1 = CbTiming.deferredTick) ∧
    (∀ c ∈ (idsOp true db fmFault).cbCalls, c.1 = CbTiming.deferredTick) ∧
    (∀ c ∈ (lengthOp true db fmFault).cbCalls, c.1 = CbTiming.deferredTick) ∧
    (∀ c ∈ (clearOp true db dmFault).cbCalls, c.1 = CbTiming.deferredTick) ∧
    (∀ c ∈ (destroyOne true db sid dmFault).cbCalls, c.1 = CbTiming.deferredTick) ∧
    (∀ c ∈ (destroyArr true db sids dmFault).cbCalls, c.1 = CbTiming.deferredTick) := by
  refine ⟨?_, ?_, ?_, ?_, ⟨rfl, ?_⟩, ?_, ?_, ?_, ?_, ?_, ?_⟩
  · intro hg conn
    unfold setOp
    rw [if_pos hg]
  · intro hg
    constructor
    · unfold setOp
      rw [if_neg hg]
      rfl
    · unfold setOp
      rw [if_neg hg]
      rw [if_neg (by simp : ¬ ((true : Bool) = false))]
      cases hgt : getTTL ⟨options.ttl⟩ session sid with
      | error e => simp [hgt]
      | ok ttl =>
        simp only [hgt]
        cases hs : ser.stringify session.toObj with
        | error e => simp [hs]
        | ok sessionString =>
          simp only [hs]
          cases writeFault with
          | some e => simp
          | none =>
            cases (if findFault then none else dbFind db sid) with
            | some r => simp
            | none => simp
  · intro hg conn
    unfold touchOp
    rw [if_pos hg]
  · intro hg
    constructor
    · unfold touchOp
      rw [if_neg hg]
      rfl
    · unfold touchOp
      rw [if_neg hg]
      rw [if_neg (by simp : ¬ ((true : Bool) = false))]
      cases hgt : getTTL ⟨options.ttl⟩ session sid with
      | error e => simp [hgt]
      | ok ttl =>
        simp only [hgt]
        cases findFault2 with
        | some e => simp
        | none =>
          cases hf : dbFind db sid with
          | none => simp [hf]
          | some r =>
            simp only [hf]
            cases hp : ser.parse (r.data.getD "{}") with
            | error e => simp [hp]
            | ok parsed =>
              simp only [hp]
              cases hst : ser.stringify { parsed with cookie := session.cookie } with
              | error e => simp [hst]
              | ok dataStr =>
                simp only [hst]
                cases writeFault with
                | some e => simp
                | none => simp
  · unfold getOp
    rw [if_neg (by simp : ¬ ((true : Bool) = false))]
    cases hf : (if findFault then none else dbFind db sid) with
    | none => simp [hf]
    | some r =>
      simp only [hf]
      split
      · cases deleteFault with
        | some e => simp
        | none => simp
      · cases hp : ser.parse (r.data.getD "{}") with
        | ok v => simp [hp]
        | error e => simp [hp]
  · unfold allOp
    rw [if_neg (by simp : ¬ ((true : Bool) = false))]
    cases fmFault with
    | some e => simp
    | none =>
      cases hp : parsePairs ser db.records with
      | error e => simp [hp]
      | ok ps => simp [hp]
  · unfold idsOp
    rw [if_neg (by simp : ¬ ((true : Bool) = false))]
    cases fmFault with
    | some e => simp
    | none => simp
  · unfold lengthOp
    rw [if_neg (by simp : ¬ ((true : Bool) = false))]
    cases fmFault with
    | some e => simp
    | none => simp
  · unfold clearOp
    rw [if_neg (by simp : ¬ ((true : Bool) = false))]
    cases dmFault with
    | some e => simp
    | none => simp
  · unfold destroyOne
    rw [if_neg (by simp : ¬ ((true : Bool) = false))]
    cases dmFault with
    | some e => simp
    | none => simp
  · unfold destroyArr
    rw [if_neg (by simp : ¬ ((true : Bool) = false))]
    intro c hc
    simp only [List.mem_append] at hc
    rcases hc with h1 | h2
    · exact destroyArr_inner_deferred sids dmFault (db, []) (by simp) c h1
    · simp at h2
      simp [h2]

/-- C6 witness: with the guard flag for "sid-0" held, set() completes its
callback synchronously; with a healthy connection and no guard, a clear()
callback is deferred. -/
theorem callback_timing_witness :
    (setOp true testOptions stubSerializer 100 ⟨[]⟩ heldFlags "sid-0"
      ⟨none, []⟩ false none).cbCalls = [(.syncSameTick, none)] :=
  (callback_timing testOptions stubSerializer 100 ⟨[]⟩ heldFlags "sid-0"
    ⟨none, []⟩ [] false none none none none none).1 (by decide) true

def aliceArg : SessionArg := ⟨none, [("user", "alice")]⟩

def bobArg : SessionArg := ⟨none, [("user", "bob")]⟩

def raceCfg : TraceCfg := ⟨testOptions, stubSerializer, 100, true⟩

def raceStart : TraceState :=
  ⟨⟨[]⟩, [], [⟨"sid-0", aliceArg, .ready⟩, ⟨"sid-0", bobArg, .ready⟩], 0⟩

/-- C7: when the escape hatches are not enabled and the per-key in-flight
flag for a key is already held, an incoming set() (respectively touch())
for that key logs a warning and completes its callback with no error,
leaving the table and the flag map untouched — it is dropped, not queued.
In the interleaving where the first call holds the flag across its awaited
calls, the second call is dropped by the guard and only the first call's
data is persisted. -/
theorem concurrent_write_dropped (conn : Bool) (options : StoreOptions)
    (ser : Serializer) (now : ℤ) (db : StoreDB) (flags : FlagMap)
    (sid : String) (session : SessionArg) (findFault : Bool)
    (findFault2 writeFault : Option JsError)
    (hs : options.enableConcurrentSetInvocationsForSameSessionID ≠ some true)
    (ht : options.enableConcurrentTouchInvocationsForSameSessionID ≠ some true)
    (hf : flagGet flags sid = some true) :
    setOp conn options ser now db flags sid session findFault writeFault =
      ⟨db, flags, [(.syncSameTick, none)], [.warnL], none⟩ ∧
    touchOp conn options ser now db flags sid session findFault2 writeFault =
      ⟨db, flags, [(.syncSameTick, none)], [.warnL], none⟩ ∧
    ((runSetSchedule raceCfg raceStart [0, 0, 1, 0, 0]).tasks.map SetTask.phase =
      [.completedOk, .droppedByGuard] ∧
     (runSetSchedule raceCfg raceStart [0, 0, 1, 0, 0]).warns = 1 ∧
     (runSetSchedule raceCfg raceStart [0, 0, 1, 0, 0]).db.records.map
        (fun r => (r.id, r.sid, r.data)) =
      [("sid-0", "sid-0", some "user=alice")]) := by
  refine ⟨?_, ?_, by decide, by decide, by decide⟩
  · unfold setOp
    rw [if_pos ⟨hs, hf⟩]
  · unfold touchOp
    rw [if_pos ⟨ht, hf⟩]

/-- C7 witness: a concrete dropped set() call with the flag held. -/
theorem concurrent_write_dropped_witness :
    setOp true testOptions stubSerializer 100 c3DB heldFlags "sid-0" aliceArg
      false none = ⟨c3DB, heldFlags, [(.syncSameTick, none)], [.warnL], none⟩ :=
  (concurrent_write_dropped true testOptions stubSerializer 100 c3DB heldFlags
    "sid-0" aliceArg false none none (by decide) (by decide) (by decide)).1

/-- C8: the failing interleaving, run on the embedded event loop.  Both
set("sid-0") invocations run their synchronous prologue (the guard check)
before either resumes from the awaited validateConnection call — after the
first two steps neither has been dropped and the flag map is still empty —
so both pass the check before either sets its flag; both then proceed
through the lookup and the write, the first completing and the second
failing with a unique-constraint violation on create.  The claim that the
check and the set happen in a single synchronous step with no intervening
suspension point is therefore false of the code: the awaited
validateConnection call sits between them. -/
theorem set_guard_check_set_race :
    (runSetSchedule raceCfg raceStart [0, 1]).flags = [] ∧
    (runSetSchedule raceCfg raceStart [0, 1]).tasks.map SetTask.phase =
      [.awaitingValidate, .awaitingValidate] ∧
    (runSetSchedule raceCfg raceStart [0, 1]).warns = 0 ∧
    (runSetSchedule raceCfg raceStart [0, 1, 0, 1, 0, 1, 0, 1]).warns = 0 ∧
    (runSetSchedule raceCfg raceStart [0, 1, 0, 1, 0, 1, 0, 1]).tasks.map
      SetTask.phase = [.completedOk, .failedUnique] ∧
    (runSetSchedule raceCfg raceStart [0, 1, 0, 1, 0, 1, 0, 1]).db.records.map
      (fun r => (r.id, r.sid, r.data)) =
      [("sid-0", "sid-0", some "user=alice")] := by
  decide

/-- C9: the failing recovery scenario, run on the embedded scheduler state
machine.  With a check period of 1000 ms the constructor starts the prune
timer; a failed connectivity probe degrades the engine and stops the timer
(stopInterval clears the timer but leaves the checkInterval field set); the
next successful probe clears the degraded flag and calls startInterval,
which returns immediately because the stale checkInterval field is still
set — so no recurring prune timer is active after recovery, although the
claim requires one. -/
theorem prune_scheduler_not_restarted :
    (initialEngineState (some 1000)).timerActive = true ∧
    ((validateConnectionStep (some 1000) false
      (initialEngineState (some 1000))).1).invalidConnection = true ∧
    ((validateConnectionStep (some 1000) false
      (initialEngineState (some 1000))).1).timerActive = false ∧
    ((validateConnectionStep (some 1000) true
      ((validateConnectionStep (some 1000) false
        (initialEngineState (some 1000))).1)).1).invalidConnection = false ∧
    ((validateConnectionStep (some 1000) true
      ((validateConnectionStep (some 1000) false
        (initialEngineState (some 1000))).1)).1).checkIntervalSet = true ∧
    ((validateConnectionStep (some 1000) true
      ((validateConnectionStep (some 1000) false
        (initialEngineState (some 1000))).1)).1).timerActive = false := by
  decide

/-- The callback-invocation count of the inner per-key loop of destroy()
on an array of keys, with a healthy connection and no injected fault: one
invocation per key on top of what was already accumulated. -/
theorem destroyArr_inner_count (sids : List String) :
    ∀ acc : StoreDB × List (CbTiming × Option JsError × Option Unit),
      (sids.foldl (fun acc sid =>
          let o := destroyOne true acc.1 sid none
          (o.db, acc.2 ++ o.cbCalls)) acc).2.length =
        acc.2.length + sids.length := by
  induction sids with
  | nil => intro acc; simp
  | cons hd tl ih =>
    intro acc
    rw [List.foldl_cons, ih]
    simp [destroyOne]
    omega

/-- C10: destroying a non-empty array of n keys with a healthy connection
and a supplied callback invokes that callback n + 1 times — once per
recursive per-key call and once more after the aggregation — hence more
than once. -/
theorem destroy_array_callback_count (db : StoreDB) (sids : List String)
    (h : sids ≠ []) :
    (destroyArr true db sids none).cbCalls.length = sids.length + 1 ∧
    1 < (destroyArr true db sids none).cbCalls.length := by
  have hlen : (destroyArr true db sids none).cbCalls.length = sids.length + 1 := by
    unfold destroyArr
    rw [if_neg (by simp : ¬ ((true : Bool) = false))]
    simp only [List.length_append, destroyArr_inner_count sids (db, [])]
    simp
  refine ⟨hlen, ?_⟩
  rw [hlen]
  have : sids.length ≠ 0 := fun h0 => h (List.length_eq_zero.mp h0)
  omega

/-- C10 witness: destroying two keys invokes the callback three times. -/
theorem destroy_array_callback_count_witness :
    (["sid-0", "sid-1"] : List String) ≠ [] ∧
    (destroyArr true c3DB ["sid-0", "sid-1"] none).cbCalls.length = 3 :=
  ⟨by decide, by
    have h := (destroy_array_callback_count c3DB ["sid-0", "sid-1"] (by decide)).1
    simpa using h⟩
